import Mathlib

/-!
Verification of the FastAPI user-management backend
(`backend/app`): the user router endpoints, the settings loader, the
token utility and the current-user dependency.

The embedding is shallow: each request handler from
`backend/app/router/user/router.py` becomes a pure Lean function from the
database state (a list of user records) and the request data to an HTTP
result (success body or raised `HTTPException`).  Components of the
repository whose files are not present under the sources
(`app/database/user/service.py`, `app/util/auth.py`,
`app/router/user/dependency.py`) are modelled from the spec; their doc
comments say so.
-/

namespace FastApiUsers

/-- The persisted user record: numeric primary key `id`, secondary `uuid`
identifier (a 128-bit value, modelled as a natural number), and the four
string attributes.  From the data model of `app/database/user/model.py`
as described by the spec and used by the router. -/
structure UserModel where
  id : Nat
  uuid : Nat
  name : String
  email : String
  role : String
  password : String
deriving DecidableEq, Repr

/-- The partial-update request body (`UserUpdate`): each field optional;
`none` models an omitted field and `some ""` an explicitly falsy one
(Python treats both `None` and `""` as falsy in `a or b`). -/
structure UserUpdate where
  name : Option String
  email : Option String
  role : Option String
  password : Option String
deriving DecidableEq, Repr

/-- The database: the table of user rows, in insertion order. -/
abbrev Db := List UserModel

/-- Python truthiness of an optional string: `None` and `""` are falsy. -/
def truthyStr : Option String → Bool
  | none => false
  | some s => !(s == "")

/-- Python `new or old` for an optional-string field against a stored
string: keeps `old` when `new` is `None` or `""`, otherwise takes `new`. -/
def orKeep (new : Option String) (old : String) : String :=
  match new with
  | none => old
  | some s => if s == "" then old else s

/-- Configuration from `app/config.py` (`Settings`): the four required
environment-sourced values. -/
structure Settings where
  PG_DATABASE_URL : String
  SECRET_KEY : String
  ALGORITHM : String
  ACCESS_TOKEN_EXPIRE_MINUTES : Nat
deriving DecidableEq, Repr

/-- A raised `fastapi.HTTPException`: status code, detail string and
extra response headers. -/
structure HTTPException where
  status_code : Nat
  detail : String
  headers : List (String × String)
deriving DecidableEq, Repr

/-- Outcome of a request handler: a success body or a raised
`HTTPException`. -/
inductive HttpResult (α : Type) where
  | ok : α → HttpResult α
  | err : HTTPException → HttpResult α
deriving DecidableEq, Repr

namespace UserService

/-- Modelled from the spec: `UserService.get_users` of
`app/database/user/service.py` (not under the sources).  `list(filter?)`:
full table scan when unfiltered, equality filter by UUID when provided;
returns the empty collection, never a failure, when nothing matches. -/
def get_users (db : Db) (uuid : Option Nat) : List UserModel :=
  match uuid with
  | none => db
  | some v => db.filter (fun u => u.uuid == v)

/-- Modelled from the spec: `UserService.verify_user` of
`app/database/user/service.py` (not under the sources).  Fetches the
record by email and compares the stored password by direct equality;
returns the record on match, an empty/falsy result otherwise. -/
def verify_user (db : Db) (email password : String) : Option UserModel :=
  match db.find? (fun u => u.email == email) with
  | none => none
  | some u => if u.password == password then some u else none

/-- Modelled from the spec: `UserService.delete_user` of
`app/database/user/service.py` (not under the sources).  Removes the
record matching the UUID; signals a distinct no-result condition
(`NoResultFound`) when no row matches. -/
def delete_user (db : Db) (uuid : Nat) : Except Unit Db :=
  if db.any (fun u => u.uuid == uuid) then
    Except.ok (db.filter (fun u => !(u.uuid == uuid)))
  else
    Except.error ()

end UserService

/-- The claims embedded in an issued token: subject and absolute expiry
(seconds). -/
structure TokenClaims where
  sub : String
  exp : Nat
deriving DecidableEq, Repr

/-- Modelled from the spec: a signed token.  The signature is abstracted
as the binding of the claims to the signing secret and algorithm; a
tampered token is one whose binding no longer matches the configured
secret/algorithm. -/
structure Token where
  claims : TokenClaims
  secret : String
  algorithm : String
deriving DecidableEq, Repr

namespace AuthUtil

/-- Modelled from the spec: `AuthUtil.create_access_token` of
`app/util/auth.py` (not under the sources).  Produces a signed token
embedding the supplied subject claim plus an absolute expiry equal to
the current time plus the supplied lifetime (`expires_delta`, given in
minutes); signing uses the configured symmetric secret and algorithm. -/
def create_access_token (cfg : Settings) (sub : String) (now : Nat)
    (expires_delta_minutes : Nat) : Token :=
  ⟨⟨sub, now + 60 * expires_delta_minutes⟩, cfg.SECRET_KEY, cfg.ALGORITHM⟩

end AuthUtil

/-- The `HTTPException` raised by the current-user dependency on any
authentication failure: 401 with a `WWW-Authenticate: Bearer` header. -/
def credentials_exception : HTTPException :=
  ⟨401, "Could not validate credentials", [("WWW-Authenticate", "Bearer")]⟩

/-- Modelled from the spec: the `get_current_user` dependency of
`app/router/user/dependency.py` (not under the sources).  Decodes and
verifies the bearer token (signature, algorithm, expiry), resolves the
subject claim to a stored user by email, and fails with an unauthorized
signal on a missing, tampered, expired or dangling token. -/
def get_current_user (cfg : Settings) (db : Db) (now : Nat)
    (tok : Option Token) : HttpResult UserModel :=
  match tok with
  | none => .err credentials_exception
  | some t =>
    if t.secret == cfg.SECRET_KEY && t.algorithm == cfg.ALGORITHM
        && decide (now < t.claims.exp) then
      match db.find? (fun u => u.email == t.claims.sub) with
      | some u => .ok u
      | none => .err credentials_exception
    else
      .err credentials_exception

/-- The conditions under which the current-user dependency accepts a
request: a bearer token is present, correctly signed with the configured
secret and algorithm, unexpired, and its subject resolves to a stored
user. -/
def tokenValid (cfg : Settings) (db : Db) (now : Nat)
    (tok : Option Token) : Bool :=
  match tok with
  | none => false
  | some t =>
    t.secret == cfg.SECRET_KEY && t.algorithm == cfg.ALGORITHM
      && decide (now < t.claims.exp)
      && (db.find? (fun u => u.email == t.claims.sub)).isSome

/-- The login success body: `{access_token, token_type}`. -/
structure LoginResponse where
  access_token : Token
  token_type : String
deriving DecidableEq, Repr

namespace Router

/-- `GET /api/user/` (`get_users` in `router.py` lines 17-36): fetches
all users through the service; returns `[]` when the result is falsy,
the result itself otherwise.  Never raises. -/
def get_users (db : Db) : HttpResult (List UserModel) :=
  let result := UserService.get_users db none
  if result.isEmpty then .ok [] else .ok result

/-- The lookup performed by the update endpoint (`router.py` line 88):
the plain numeric path id is passed as the UUID equality filter of the
service list call, `get_users(uuid=user_id)`. -/
def update_user_lookup (db : Db) (user_id : Nat) : List UserModel :=
  UserService.get_users db (some user_id)

/-- The field-by-field mutation of the fetched record performed by the
update endpoint (`router.py` lines 96-100): each of the four fields is
overwritten only when the new value is truthy (`user.f or existing.f`). -/
def apply_update (existing : UserModel) (user : UserUpdate) : UserModel :=
  { existing with
    name := orKeep user.name existing.name
    email := orKeep user.email existing.email
    role := orKeep user.role existing.role
    password := orKeep user.password existing.password }

/-- `PUT /api/user/{user_id}` (`update_user` in `router.py` lines
66-109): look up via `get_users(uuid=user_id)`; 404 when the lookup is
falsy; otherwise mutate the first record field-by-field and persist it.
`updated` is the truthy/falsy success signal returned by the service
update; on a falsy signal raise 400, otherwise return the mutated
record (HTTP 200). -/
def update_user (db : Db) (user_id : Nat) (user : UserUpdate)
    (updated : Bool) : HttpResult UserModel :=
  match update_user_lookup db user_id with
  | [] => .err ⟨404, "User not found", []⟩
  | e :: _ =>
    let existing_user := apply_update e user
    if updated then .ok existing_user
    else .err ⟨400, "Failed to update user", []⟩

/-- `DELETE /api/user/{user_id}` (`delete_user` in `router.py` lines
111-146): look up by UUID; 404 when the lookup is falsy; otherwise call
the service delete on the found record's uuid, mapping a `NoResultFound`
to 400; on success return no content (HTTP 204).  `svcDelete` is the
service delete operation on the session. -/
def delete_user (db : Db) (user_id : Nat)
    (svcDelete : Nat → Except Unit Unit) : HttpResult Unit :=
  match UserService.get_users db (some user_id) with
  | [] => .err ⟨404, "User not found", []⟩
  | e :: _ =>
    match svcDelete e.uuid with
    | .ok _ => .ok ()
    | .error _ => .err ⟨400, "Failed to delete user", []⟩

/-- `POST /api/user/login` (`login` in `router.py` lines 148-175):
verify the credentials; on a falsy result raise 401 with a
`WWW-Authenticate: Bearer` header; otherwise issue an access token with
subject the verified user's email and lifetime
`ACCESS_TOKEN_EXPIRE_MINUTES`, returning it with token type
`"bearer"`. -/
def login (cfg : Settings) (db : Db) (username password : String)
    (now : Nat) : HttpResult LoginResponse :=
  match UserService.verify_user db username password with
  | none =>
    .err ⟨401, "Invalid credentials", [("WWW-Authenticate", "Bearer")]⟩
  | some user =>
    .ok ⟨AuthUtil.create_access_token cfg user.email now
          cfg.ACCESS_TOKEN_EXPIRE_MINUTES, "bearer"⟩

/-- `GET /api/user/protected-route` (`protected_route` in `router.py`
lines 177-188): gated on the `get_current_user` dependency; when the
dependency fails its exception is the response and the handler body is
not reached; when it succeeds the handler returns the static message. -/
def protected_route (cfg : Settings) (db : Db) (now : Nat)
    (tok : Option Token) : HttpResult (List (String × String)) :=
  match get_current_user cfg db now tok with
  | .err e => .err e
  | .ok _ => .ok [("message", "This is a protected route")]

end Router

/-- The environment variables the settings loader reads, already typed
(`pydantic` parsing is not at issue in the claims about caching). -/
structure Env where
  pg_database_url : String
  secret_key : String
  algorithm : String
  access_token_expire_minutes : Nat
deriving DecidableEq, Repr

/-- `Settings()`: constructs the settings object from the environment
(`app/config.py` lines 4-10). -/
def load_settings (env : Env) : Settings :=
  ⟨env.pg_database_url, env.secret_key, env.algorithm,
    env.access_token_expire_minutes⟩

/-- The process state of the `lru_cache` on `get_settings`: the cached
settings object, if any, and a counter of environment reads. -/
structure SettingsCache where
  cache : Option Settings
  env_reads : Nat
deriving DecidableEq, Repr

/-- The process state at startup: nothing cached, no environment read. -/
def init_cache : SettingsCache := ⟨none, 0⟩

/-- `get_settings` (`app/config.py` lines 13-15): `lru_cache`-decorated
zero-argument function.  On a cache hit it returns the cached object and
leaves the state untouched; on a miss it reads the environment, caches
the resulting object and returns it. -/
def get_settings (env : Env) (st : SettingsCache) :
    Settings × SettingsCache :=
  match st.cache with
  | some v => (v, st)
  | none =>
    let v := load_settings env
    (v, ⟨some v, st.env_reads + 1⟩)

/-- `n` successive calls of `get_settings` in the same process,
threading the cache state. -/
def get_settings_calls (env : Env) : Nat → SettingsCache → SettingsCache
  | 0, st => st
  | n + 1, st => get_settings_calls env n (get_settings env st).2

/-! ## Helper lemmas -/

/-- `orKeep` keeps the old value exactly when the new one is falsy. -/
theorem orKeep_eq_ite (new : Option String) (old : String) :
    orKeep new old = if truthyStr new then new.getD "" else old := by
  cases new with
  | none => rfl
  | some s =>
    by_cases h : s = ""
    · simp [orKeep, truthyStr, h]
    · simp [orKeep, truthyStr, h]

/-- The protected route responds with the static message exactly when
the token is accepted, and with the 401 credentials exception
otherwise. -/
theorem protected_route_eq_ite (cfg : Settings) (db : Db) (now : Nat)
    (tok : Option Token) :
    Router.protected_route cfg db now tok =
      if tokenValid cfg db now tok then
        .ok [("message", "This is a protected route")]
      else .err credentials_exception := by
  cases tok with
  | none => rfl
  | some t =>
    simp only [Router.protected_route, get_current_user, tokenValid]
    by_cases hcond : (t.secret == cfg.SECRET_KEY
        && t.algorithm == cfg.ALGORITHM && decide (now < t.claims.exp)) = true
    · simp only [hcond, Bool.true_and, if_true]
      cases hf : db.find? (fun u => u.email == t.claims.sub) with
      | none => simp [hf]
      | some u => simp [hf]
    · rw [Bool.not_eq_true] at hcond
      simp [hcond]

/-- A `get_settings` call on a warm cache returns the cached object and
leaves the state untouched. -/
theorem get_settings_cached (env : Env) (st : SettingsCache)
    (v : Settings) (h : st.cache = some v) :
    get_settings env st = (v, st) := by
  simp [get_settings, h]

/-- Any number of `get_settings` calls on a warm cache leaves the state
untouched. -/
theorem get_settings_calls_stable (env : Env) :
    ∀ n (st : SettingsCache), st.cache.isSome → get_settings_calls env n st = st := by
  intro n
  induction n with
  | zero => intro st _; rfl
  | succ n ih =>
    intro st h
    rcases hc : st.cache with _ | v
    · rw [hc] at h; simp at h
    · show get_settings_calls env n (get_settings env st).2 = st
      rw [get_settings_cached env st v hc]
      exact ih st h

/-! ## Claim theorems -/

/-- C1: for every login request whose credentials verify
(`verify_user` returns a user record), the login endpoint returns
`{access_token, token_type: "bearer"}` where the access token is signed
with the configured secret and algorithm and embeds a subject claim
equal to that user's email and an absolute expiry equal to the current
time plus the configured `ACCESS_TOKEN_EXPIRE_MINUTES`. -/
theorem C1_login_issues_bearer_token (cfg : Settings) (db : Db)
    (username password : String) (now : Nat) (u : UserModel)
    (h : UserService.verify_user db username password = some u) :
    Router.login cfg db username password now =
      .ok ⟨⟨⟨u.email, now + 60 * cfg.ACCESS_TOKEN_EXPIRE_MINUTES⟩,
            cfg.SECRET_KEY, cfg.ALGORITHM⟩, "bearer"⟩ := by
  simp [Router.login, h, AuthUtil.create_access_token]

/-- C1 witness: a concrete successful login. -/
theorem C1_login_issues_bearer_token_witness :
    Router.login ⟨"pg", "secret", "HS256", 30⟩
        [⟨1, 11, "A", "a@x.com", "user", "p"⟩] "a@x.com" "p" 100 =
      .ok ⟨⟨⟨"a@x.com", 100 + 60 * 30⟩, "secret", "HS256"⟩, "bearer"⟩ :=
  C1_login_issues_bearer_token ⟨"pg", "secret", "HS256", 30⟩
    [⟨1, 11, "A", "a@x.com", "user", "p"⟩] "a@x.com" "p" 100
    ⟨1, 11, "A", "a@x.com", "user", "p"⟩ (by decide)

/-- C2: the protected route answers 200 with the static message exactly
when the bearer token is accepted (present, correctly signed,
unexpired, resolving to a stored user); on a missing, expired, tampered
or otherwise invalid token the response is the 401 exception and the
handler body is never reached. -/
theorem C2_protected_route_requires_valid_token (cfg : Settings)
    (db : Db) (now : Nat) (tok : Option Token) :
    (tokenValid cfg db now tok = true →
      Router.protected_route cfg db now tok =
        .ok [("message", "This is a protected route")]) ∧
    (tokenValid cfg db now tok = false →
      Router.protected_route cfg db now tok = .err credentials_exception ∧
      credentials_exception.status_code = 401) := by
  constructor
  · intro h
    rw [protected_route_eq_ite, h]
    rfl
  · intro h
    rw [protected_route_eq_ite, h]
    exact ⟨rfl, rfl⟩

/-- C2 witness: a concrete valid token is accepted by the protected
route. -/
theorem C2_protected_route_requires_valid_token_witness :
    Router.protected_route ⟨"pg", "secret", "HS256", 30⟩
        [⟨1, 11, "A", "a@x.com", "user", "p"⟩] 50
        (some ⟨⟨"a@x.com", 1900⟩, "secret", "HS256"⟩) =
      .ok [("message", "This is a protected route")] :=
  (C2_protected_route_requires_valid_token ⟨"pg", "secret", "HS256", 30⟩
    [⟨1, 11, "A", "a@x.com", "user", "p"⟩] 50
    (some ⟨⟨"a@x.com", 1900⟩, "secret", "HS256"⟩)).1 (by decide)

/-- C3: for every login request whose credentials do not verify
(`verify_user` yields a falsy result), the login endpoint fails with
HTTP 401 carrying a `WWW-Authenticate: Bearer` header and no access
token is created or returned. -/
theorem C3_login_rejects_bad_credentials (cfg : Settings) (db : Db)
    (username password : String) (now : Nat)
    (h : UserService.verify_user db username password = none) :
    Router.login cfg db username password now =
      .err ⟨401, "Invalid credentials", [("WWW-Authenticate", "Bearer")]⟩ ∧
    ∀ r : LoginResponse, Router.login cfg db username password now ≠ .ok r := by
  have he : Router.login cfg db username password now =
      .err ⟨401, "Invalid credentials", [("WWW-Authenticate", "Bearer")]⟩ := by
    simp [Router.login, h]
  exact ⟨he, fun r hr => by rw [he] at hr; exact HttpResult.noConfusion hr⟩

/-- C3 witness: a concrete login with a wrong password. -/
theorem C3_login_rejects_bad_credentials_witness :
    Router.login ⟨"pg", "secret", "HS256", 30⟩
        [⟨1, 11, "A", "a@x.com", "user", "p"⟩] "a@x.com" "wrong" 100 =
      .err ⟨401, "Invalid credentials", [("WWW-Authenticate", "Bearer")]⟩ ∧
    ∀ r : LoginResponse,
      Router.login ⟨"pg", "secret", "HS256", 30⟩
        [⟨1, 11, "A", "a@x.com", "user", "p"⟩] "a@x.com" "wrong" 100 ≠ .ok r :=
  C3_login_rejects_bad_credentials ⟨"pg", "secret", "HS256", 30⟩
    [⟨1, 11, "A", "a@x.com", "user", "p"⟩] "a@x.com" "wrong" 100 (by decide)

/-- C4: when the UUID lookup of the delete endpoint returns an empty
result the response is 404 and never 204 (no content); the 400 response
arises only when the lookup succeeded and the service delete raised the
no-result error on the found record's uuid. -/
theorem C4_delete_not_found_is_404 (db : Db) (user_id : Nat)
    (svcDelete : Nat → Except Unit Unit) :
    (UserService.get_users db (some user_id) = [] →
      Router.delete_user db user_id svcDelete =
        .err ⟨404, "User not found", []⟩ ∧
      Router.delete_user db user_id svcDelete ≠ .ok ()) ∧
    (Router.delete_user db user_id svcDelete =
        .err ⟨400, "Failed to delete user", []⟩ →
      ∃ e rest, UserService.get_users db (some user_id) = e :: rest ∧
        svcDelete e.uuid = .error ()) := by
  constructor
  · intro h
    have he : Router.delete_user db user_id svcDelete =
        .err ⟨404, "User not found", []⟩ := by
      simp [Router.delete_user, h]
    exact ⟨he, fun hr => by rw [he] at hr; exact HttpResult.noConfusion hr⟩
  · intro h
    rcases hl : UserService.get_users db (some user_id) with _ | ⟨e, rest⟩
    · exfalso
      simp [Router.delete_user, hl] at h
    · refine ⟨e, rest, rfl, ?_⟩
      cases hs : svcDelete e.uuid with
      | error b => cases b; rfl
      | ok a =>
        exfalso
        simp [Router.delete_user, hl, hs] at h

/-- C4 witness: deleting from an empty table yields 404, not 204. -/
theorem C4_delete_not_found_is_404_witness :
    Router.delete_user [] 7 (fun _ => Except.ok ()) =
      .err ⟨404, "User not found", []⟩ ∧
    Router.delete_user [] 7 (fun _ => Except.ok ()) ≠ .ok () :=
  (C4_delete_not_found_is_404 [] 7 (fun _ => Except.ok ())).1 rfl

/-- C5: the update mutation overwrites each of the four fields exactly
when the corresponding request field is truthy, keeps the previous
value when it is omitted or falsy, and leaves `id` and `uuid`
unchanged. -/
theorem C5_partial_update_frame (e : UserModel) (u : UserUpdate) :
    (Router.apply_update e u).name =
      (if truthyStr u.name then u.name.getD "" else e.name) ∧
    (Router.apply_update e u).email =
      (if truthyStr u.email then u.email.getD "" else e.email) ∧
    (Router.apply_update e u).role =
      (if truthyStr u.role then u.role.getD "" else e.role) ∧
    (Router.apply_update e u).password =
      (if truthyStr u.password then u.password.getD "" else e.password) ∧
    (Router.apply_update e u).id = e.id ∧
    (Router.apply_update e u).uuid = e.uuid := by
  refine ⟨?_, ?_, ?_, ?_, rfl, rfl⟩ <;>
    simp [Router.apply_update, orKeep_eq_ite]

/-- C6: the update endpoint fails with 404 when the lookup finds no
user, fails with 400 when the user is found but the persistence update
signals falsy, and otherwise returns the updated user record. -/
theorem C6_update_status_codes (db : Db) (user_id : Nat)
    (u : UserUpdate) (updated : Bool) :
    (Router.update_user_lookup db user_id = [] →
      Router.update_user db user_id u updated =
        .err ⟨404, "User not found", []⟩) ∧
    (∀ e rest, Router.update_user_lookup db user_id = e :: rest →
      (updated = false →
        Router.update_user db user_id u updated =
          .err ⟨400, "Failed to update user", []⟩) ∧
      (updated = true →
        Router.update_user db user_id u updated =
          .ok (Router.apply_update e u))) := by
  constructor
  · intro h
    simp [Router.update_user, h]
  · intro e rest h
    constructor <;> intro hu <;> simp [Router.update_user, h, hu]

/-- C6 witness: updating a user that does not exist yields 404. -/
theorem C6_update_status_codes_witness :
    Router.update_user [] 3 ⟨none, none, none, none⟩ true =
      .err ⟨404, "User not found", []⟩ :=
  (C6_update_status_codes [] 3 ⟨none, none, none, none⟩ true).1 rfl

/-- C7: the update endpoint resolves the plain numeric path id through
the UUID-based service lookup: its lookup equals the table filtered by
UUID equality against the numeric id, so a stored user whose numeric id
matches but whose uuid differs is not found. -/
theorem C7_update_keyed_by_uuid (db : Db) (user_id : Nat) :
    Router.update_user_lookup db user_id =
      db.filter (fun x => x.uuid == user_id) ∧
    ∀ x, x ∈ db → x.id = user_id → x.uuid ≠ user_id →
      x ∉ Router.update_user_lookup db user_id := by
  refine ⟨rfl, ?_⟩
  intro x _ _ huuid hmem
  rw [show Router.update_user_lookup db user_id =
      db.filter (fun x => x.uuid == user_id) from rfl] at hmem
  rw [List.mem_filter] at hmem
  exact huuid (by simpa using hmem.2)

/-- C7 witness: a user with numeric id 5 but uuid 7 is not found by the
update lookup for path id 5. -/
theorem C7_update_keyed_by_uuid_witness :
    (⟨5, 7, "B", "b@x.com", "user", "q"⟩ : UserModel) ∉
      Router.update_user_lookup [⟨5, 7, "B", "b@x.com", "user", "q"⟩] 5 :=
  (C7_update_keyed_by_uuid [⟨5, 7, "B", "b@x.com", "user", "q"⟩] 5).2
    ⟨5, 7, "B", "b@x.com", "user", "q"⟩ (by simp) rfl (by decide)

/-- C8: the list-users endpoint never fails: it always answers with the
service's result (the empty collection when nothing matches, the result
unchanged otherwise). -/
theorem C8_list_users_total (db : Db) :
    Router.get_users db = .ok (UserService.get_users db none) := by
  cases db with
  | nil => rfl
  | cons a l => rfl

/-- C9: the settings loader reads the environment at most once per
process: a repeated `get_settings` call returns the same cached object
and leaves the cache state untouched, and any number of calls from
process start performs at most one environment read. -/
theorem C9_settings_cached_once (env : Env) (st : SettingsCache) :
    get_settings env ((get_settings env st).2) = get_settings env st ∧
    ∀ n, (get_settings_calls env n init_cache).env_reads ≤ 1 := by
  constructor
  · rcases hc : st.cache with _ | v
    · simp [get_settings, hc]
    · simp [get_settings, hc]
  · intro n
    cases n with
    | zero => exact Nat.zero_le 1
    | succ n =>
      have h1 : (get_settings env init_cache).2 =
          ⟨some (load_settings env), 1⟩ := rfl
      have h2 : get_settings_calls env (n + 1) init_cache =
          get_settings_calls env n ⟨some (load_settings env), 1⟩ := by
        show get_settings_calls env n (get_settings env init_cache).2 = _
        rw [h1]
      rw [h2, get_settings_calls_stable env n ⟨some (load_settings env), 1⟩ rfl]

/-- C10: the protected route's success response does not depend on
which user is authenticated: any two requests that both pass the
current-user dependency receive the identical body. -/
theorem C10_protected_route_user_independent (cfg : Settings) (db : Db)
    (now : Nat) (tok1 tok2 : Option Token) (u1 u2 : UserModel)
    (h1 : get_current_user cfg db now tok1 = .ok u1)
    (h2 : get_current_user cfg db now tok2 = .ok u2) :
    Router.protected_route cfg db now tok1 =
      Router.protected_route cfg db now tok2 := by
  simp [Router.protected_route, h1, h2]

/-- C10 witness: two different authenticated users receive the same
protected-route response. -/
theorem C10_protected_route_user_independent_witness :
    Router.protected_route ⟨"pg", "secret", "HS256", 30⟩
        [⟨1, 11, "A", "a@x.com", "user", "p"⟩,
         ⟨2, 22, "B", "b@x.com", "admin", "q"⟩] 50
        (some ⟨⟨"a@x.com", 1900⟩, "secret", "HS256"⟩) =
      Router.protected_route ⟨"pg", "secret", "HS256", 30⟩
        [⟨1, 11, "A", "a@x.com", "user", "p"⟩,
         ⟨2, 22, "B", "b@x.com", "admin", "q"⟩] 50
        (some ⟨⟨"b@x.com", 1900⟩, "secret", "HS256"⟩) :=
  C10_protected_route_user_independent ⟨"pg", "secret", "HS256", 30⟩
    [⟨1, 11, "A", "a@x.com", "user", "p"⟩,
     ⟨2, 22, "B", "b@x.com", "admin", "q"⟩] 50
    (some ⟨⟨"a@x.com", 1900⟩, "secret", "HS256"⟩)
    (some ⟨⟨"b@x.com", 1900⟩, "secret", "HS256"⟩)
    ⟨1, 11, "A", "a@x.com", "user", "p"⟩
    ⟨2, 22, "B", "b@x.com", "admin", "q"⟩
    (by decide) (by decide)

end FastApiUsers
